import Mathlib

/-!
Verification of the gift-guide grid widget (`assets/gift-guide-grid.js`).

The development shallowly embeds the product data model and the pure logic of
the `GiftGuideGridComponent` class: variant resolution (`getSelectedVariant`),
option-value availability gating (`isVariantAvailable`), selection
initialization (`initializeVariants`), the promotional bundle rule
(`shouldAutoAddDarkWinterJacket`), price formatting (`formatPrice`), image
selection (`getProductImage`), and the effectful add-to-cart / hotspot-click
flows (`handleAddToCart`, `addDarkWinterJacketToCart`, `handleHotspotClick`,
`loadProduct`).  Network calls are modelled by passing in their outcome;
DOM side effects are modelled as explicit outcome records (requests issued,
popup opened/closed, toasts shown).  JavaScript truthiness is modelled
explicitly: a missing value (`Option.none`) and the empty string are falsy;
for numbers, `0` and `NaN` are falsy.
-/

namespace GiftGuideGrid

/-- A selection mapping (the `selectedVariants` object of the component): option
name to currently chosen value.  Later entries shadow earlier ones, matching
JavaScript object assignment; reads go through `List.lookup`. -/
abbrev Sel := List (String × String)

/-- One entry of the modern `options_with_values` schema.  Only the `name`
field is consulted by the resolver, the availability gate and the selection
initializer; the per-value list is used solely for markup generation. -/
structure OptionWithValues where
  name : String
  deriving DecidableEq

/-- One entry of the legacy `options` schema (name-only, as the code accesses
`option.name` on it). -/
structure LegacyOption where
  name : String
  deriving DecidableEq

/-- An entry of the `images` array of a product. -/
structure ProductImage where
  id : Nat
  src : String
  deriving DecidableEq

/-- A product variant: id, price (cents or dollars, see `formatPrice`),
availability flag, up to three option-value slots (`option1..option3`,
`none` models a null/undefined slot), and optional image references. -/
structure Variant where
  id : Nat
  price : ℚ
  available : Bool
  option1 : Option String
  option2 : Option String
  option3 : Option String
  featured_image : Option String
  featured_image_id : Option Nat
  deriving DecidableEq

/-- A loaded product (the `/products/{handle}.js` payload as consumed by the
widget).  An absent `options_with_values` / `options` / `images` field is
modelled as the empty list: the code only ever checks those fields through
`field && field.length > 0`-style guards, which the empty list fails too. -/
structure Product where
  title : String
  price : ℚ
  variants : List Variant
  options_with_values : List OptionWithValues
  options : List LegacyOption
  featured_image : Option String
  images : List ProductImage
  deriving DecidableEq

/-- `variant[`option${i+1}`]` for zero-based slot index `i`: slots beyond the
third read as undefined (`none`), as in JavaScript. -/
def Variant.slot (v : Variant) : Nat → Option String
  | 0 => v.option1
  | 1 => v.option2
  | 2 => v.option3
  | _ => none

/-- JavaScript truthiness of an optional string: undefined/null and the empty
string are falsy. -/
def optTruthy : Option String → Bool
  | some s => s != ""
  | none => false

/-- `Array.prototype.every((x, index) => p index x)` starting at index `n`. -/
def allWithIndex {α : Type} (p : Nat → α → Bool) : Nat → List α → Bool
  | _, [] => true
  | i, a :: rest => p i a && allWithIndex p (i + 1) rest

/-- `Array.prototype.findIndex`, returning `none` instead of `-1`, with the
running index made explicit. -/
def findIdxFrom {α : Type} (p : α → Bool) : Nat → List α → Option Nat
  | _, [] => none
  | n, a :: rest => if p a then some n else findIdxFrom p (n + 1) rest

/-- ASCII `String.prototype.toLowerCase`. -/
def jsLower (s : String) : String :=
  String.mk (s.toList.map Char.toLower)

/-- `String.prototype.includes`: `pat` occurs as a contiguous substring. -/
def strContains (s pat : String) : Bool :=
  (List.range (s.toList.length + 1)).any fun i => List.isPrefixOf pat.toList (s.toList.drop i)

/-- The per-variant matching predicate of `getSelectedVariant`
(gift-guide-grid.js:392-410): under the modern schema, every option slot must
be unselected (falsy lookup) or equal to the selection; likewise under the
legacy schema; with no schema at all the predicate is `false`. -/
def variantMatchesSelection (p : Product) (sel : Sel) (variant : Variant) : Bool :=
  if p.options_with_values ≠ [] then
    allWithIndex (fun index option =>
      match List.lookup option.name sel with
      | none => true
      | some selectedValue => selectedValue == "" || variant.slot index == some selectedValue)
      0 p.options_with_values
  else if p.options ≠ [] then
    allWithIndex (fun index option =>
      match List.lookup option.name sel with
      | none => true
      | some selectedValue => selectedValue == "" || variant.slot index == some selectedValue)
      0 p.options
  else false

/-- `getSelectedVariant` (gift-guide-grid.js:389-411): first variant, in the
variant order of the product, satisfying `variantMatchesSelection`. -/
def getSelectedVariant (p : Product) (sel : Sel) : Option Variant :=
  p.variants.find? (variantMatchesSelection p sel)

/-- `isVariantAvailable(optionName, optionValue)` (gift-guide-grid.js:416-458):
some variant carries `optionValue` in the slot of `optionName` and matches all
*other* currently selected options; the option under evaluation is skipped. -/
def isVariantAvailable (p : Product) (sel : Sel) (optionName optionValue : String) : Bool :=
  if p.options_with_values ≠ [] then
    p.variants.any fun variant =>
      match findIdxFrom (fun opt => opt.name == optionName) 0 p.options_with_values with
      | none => false
      | some optionIndex =>
        variant.slot optionIndex == some optionValue &&
        allWithIndex (fun index option =>
          if option.name == optionName then true
          else match List.lookup option.name sel with
            | none => true
            | some selectedValue => selectedValue == "" || variant.slot index == some selectedValue)
          0 p.options_with_values
  else if p.options ≠ [] then
    p.variants.any fun variant =>
      match findIdxFrom (fun opt => opt.name == optionName) 0 p.options with
      | none => false
      | some optionIndex =>
        variant.slot optionIndex == some optionValue &&
        allWithIndex (fun index option =>
          if option.name == optionName then true
          else match List.lookup option.name sel with
            | none => true
            | some selectedValue => selectedValue == "" || variant.slot index == some selectedValue)
          0 p.options
  else false

/-- `selectedVariants[name] = value` guarded by `if (value)` — the shape of
every assignment in `initializeVariants`.  New entries are consed on top;
`List.lookup` then sees the latest write, matching object assignment. -/
def setIfTruthy (sel : Sel) (name : String) (value : Option String) : Sel :=
  match value with
  | some v => if v != "" then (name, v) :: sel else sel
  | none => sel

/-- The `forEach((option, index) => ...)` loop in the modern branch of
`initializeVariants`, with explicit running index. -/
def initSelectionFrom (fav : Variant) : Nat → List OptionWithValues → Sel → Sel
  | _, [], sel => sel
  | i, option :: rest, sel =>
    initSelectionFrom fav (i + 1) rest (setIfTruthy sel option.name (fav.slot i))

/-- The option-name read of the legacy branch: `options[i]?.name`, with the
string `Option` and the one-based index as the fallback when absent or falsy. -/
def legacyOptionName (p : Product) (i : Nat) : String :=
  match p.options.get? i with
  | some o => if o.name == "" then "Option " ++ toString (i + 1) else o.name
  | none => "Option " ++ toString (i + 1)

/-- `initializeVariants` (gift-guide-grid.js:121-144): reset the selection,
pick the first available variant (else the first variant), and record its
truthy option values under the option names of the schema. -/
def initializeVariants (p : Product) : Sel :=
  match p.variants with
  | [] => []
  | v0 :: _ =>
    let firstAvailableVariant := (p.variants.find? (fun v => v.available)).getD v0
    if p.options_with_values ≠ [] then
      initSelectionFrom firstAvailableVariant 0 p.options_with_values []
    else if p.options ≠ [] then
      setIfTruthy
        (setIfTruthy
          (setIfTruthy [] (legacyOptionName p 0) firstAvailableVariant.option1)
          (legacyOptionName p 1) firstAvailableVariant.option2)
        (legacyOptionName p 2) firstAvailableVariant.option3
    else []

/-- `shouldAutoAddDarkWinterJacket` (gift-guide-grid.js:487-500): the defined
(truthy) option values, lowercased, must include one containing "black" and
one containing "medium" or equal to "m". -/
def shouldAutoAddDarkWinterJacket (variant : Variant) : Bool :=
  let allOptions := ([variant.option1, variant.option2, variant.option3].filterMap id).filter
    (fun o => o != "")
  let hasBlack := allOptions.any fun option => strContains (jsLower option) "black"
  let hasMedium := allOptions.any fun option =>
    strContains (jsLower option) "medium" || jsLower option == "m"
  hasBlack && hasMedium

/-- The hard-coded companion variant id of the bundle rule. -/
def darkWinterJacketVariantId : Nat := 52160865337711

/-- Outcome of a `/cart/add.js` POST as seen by the caller. -/
inductive CartCallResult
  | ok
  | err
  deriving DecidableEq

/-- A toast notification shown to the shopper. -/
inductive Toast
  | success (msg : String)
  | error (msg : String)
  deriving DecidableEq

/-- Observable effects of an add-to-cart interaction: the `(variantId, qty)`
cart-add requests issued in order, whether the popup was closed, and the
toasts shown. -/
structure AddToCartOutcome where
  requests : List (Nat × Nat)
  popupClosed : Bool
  toasts : List Toast
  deriving DecidableEq

/-- `addDarkWinterJacketToCart` (gift-guide-grid.js:505-515): issues the
bundle add; on success shows its own success toast, on failure only logs —
the error is caught inside the function and never rethrown. -/
def addDarkWinterJacketToCart (result : CartCallResult) : List (Nat × Nat) × List Toast :=
  match result with
  | .ok => ([(darkWinterJacketVariantId, 1)],
      [Toast.success "Dark Winter Jacket automatically added to cart!"])
  | .err => ([(darkWinterJacketVariantId, 1)], [])

/-- `handleAddToCart` (gift-guide-grid.js:463-482), with the outcomes of the
primary and (potential) bundle `/cart/add.js` calls passed in.  The guard
returns immediately when no variant resolves or the resolved variant is
unavailable; a primary failure shows the error toast and leaves the popup
open; on success the popup closes and the success toast is shown, after the
bundle rule (whose own failure is swallowed) ran if triggered. -/
def handleAddToCart (p : Product) (sel : Sel)
    (primaryResult bundleResult : CartCallResult) : AddToCartOutcome :=
  match getSelectedVariant p sel with
  | none => { requests := [], popupClosed := false, toasts := [] }
  | some selectedVariant =>
    if !selectedVariant.available then { requests := [], popupClosed := false, toasts := [] }
    else
      match primaryResult with
      | .err =>
        { requests := [(selectedVariant.id, 1)], popupClosed := false,
          toasts := [Toast.error "Failed to add product to cart"] }
      | .ok =>
        if shouldAutoAddDarkWinterJacket selectedVariant then
          { requests := (selectedVariant.id, 1) :: (addDarkWinterJacketToCart bundleResult).1,
            popupClosed := true,
            toasts := (addDarkWinterJacketToCart bundleResult).2 ++
              [Toast.success "Product added to cart!"] }
        else
          { requests := [(selectedVariant.id, 1)], popupClosed := true,
            toasts := [Toast.success "Product added to cart!"] }

/-- Whether the add-to-cart guard passes: a variant resolves and it is
available (`!(!selectedVariant || !selectedVariant.available)`). -/
def resolvedAvailable (p : Product) (sel : Sel) : Bool :=
  match getSelectedVariant p sel with
  | some v => v.available
  | none => false

/-- The mutable per-popup state of the component (`currentProduct`,
`selectedVariants`). -/
structure GridState where
  currentProduct : Option Product
  selectedVariants : Sel
  deriving DecidableEq

/-- `loadProduct` (gift-guide-grid.js:90-116) with the fetch outcome passed in
(`none`: non-ok response or rejected fetch).  On success it stores the product
and initializes the selection; on failure it logs and rethrows (second
component `true`), leaving the state untouched. -/
def loadProduct (st : GridState) (fetched : Option Product) : GridState × Bool :=
  match fetched with
  | some product =>
    ({ currentProduct := some product, selectedVariants := initializeVariants product }, false)
  | none => (st, true)

/-- Observable effects of a hotspot click. -/
structure HotspotOutcome where
  state : GridState
  popupOpened : Bool
  warnedMissingId : Bool
  deriving DecidableEq

/-- `handleHotspotClick` (gift-guide-grid.js:68-85): with neither a truthy
handle nor a truthy id the handler warns and returns; otherwise it loads the
product and opens the popup in the `try` branch on success and again in the
`catch` branch on failure — the load error is swallowed. -/
def handleHotspotClick (st : GridState) (productHandle productId : Option String)
    (fetched : Option Product) : HotspotOutcome :=
  if !optTruthy productHandle && !optTruthy productId then
    { state := st, popupOpened := false, warnedMissingId := true }
  else
    match loadProduct st fetched with
    | (st2, false) => { state := st2, popupOpened := true, warnedMissingId := false }
    | (st2, true) => { state := st2, popupOpened := true, warnedMissingId := false }

/-- The possible JavaScript values reaching `formatPrice`. -/
inductive JSPrice
  | num (q : ℚ)
  | nan
  | str (s : String)
  | null
  | undef
  deriving DecidableEq

/-- JavaScript falsiness of a price value (`!price`): `0`, `NaN`, the empty
string, `null` and `undefined`. -/
def jsFalsyPrice : JSPrice → Bool
  | .num q => q == 0
  | .nan => true
  | .str s => s == ""
  | .null => true
  | .undef => true

/-- Exact `q * 100` computed through `mkRat` (the library function `Rat.mul` is
irreducible, blocking kernel evaluation); `ratMul100_eq` proves it equal to
`q * 100`. -/
def ratMul100 (q : ℚ) : ℚ := mkRat (q.num * 100) q.den

/-- Exact `q / 100` computed through `mkRat`; `ratDiv100_eq` proves it equal
to `q / 100`. -/
def ratDiv100 (q : ℚ) : ℚ := mkRat q.num (q.den * 100)

/-- The digit characters of a decimal numeral as a natural number. -/
def digitsToNat (cs : List Char) : Nat :=
  cs.foldl (fun acc c => acc * 10 + (c.toNat - '0'.toNat)) 0

/-- Insert `en-US` thousands separators into a digit string. -/
def withCommas (s : String) : String :=
  String.join ((s.toList.enum).map fun ic =>
    (if ic.1 != 0 && (s.toList.length - ic.1) % 3 == 0 then "," else "") ++ String.mk [ic.2])

/-- Round a dollar amount to integer cents, halves away from zero (the
default `halfExpand` rounding of `Intl.NumberFormat`).  `amount * 100 + 1/2`
is formed directly on the numerator/denominator so the kernel can evaluate. -/
def roundCentsHalfAway (amount : ℚ) : ℤ :=
  if 0 ≤ amount then
    Rat.floor (mkRat (amount.num * 200 + amount.den) (amount.den * 2))
  else
    -Rat.floor (mkRat (-amount.num * 200 + amount.den) (amount.den * 2))

/-- Render integer cents as `en-US` USD: sign, dollar sign, comma-grouped
dollars, two-digit cents. -/
def usdOfCents (c : ℤ) : String :=
  let a := c.natAbs
  (if c < 0 then "-" else "") ++ "$" ++ withCommas (toString (a / 100)) ++ "." ++
    (if a % 100 < 10 then "0" ++ toString (a % 100) else toString (a % 100))

/-- Model of `Intl.NumberFormat` formatting for locale en-US and currency USD. -/
def intlUSD (amount : ℚ) : String :=
  usdOfCents (roundCentsHalfAway amount)

/-- Model of `parseFloat` restricted to plain decimal numerals: optional
sign, digits, optional fractional part; trailing characters are ignored and
`none` models `NaN`.  (The source only ever feeds prices through this;
exponent and whitespace forms do not arise in the claims.) -/
def parseFloatQ (s : String) : Option ℚ :=
  let signed := match s.toList with
    | '-' :: rest => (true, rest)
    | '+' :: rest => (false, rest)
    | cs => (false, cs)
  let intDigits := signed.2.takeWhile Char.isDigit
  let fracDigits := match signed.2.dropWhile Char.isDigit with
    | '.' :: r => r.takeWhile Char.isDigit
    | _ => []
  if intDigits.isEmpty && fracDigits.isEmpty then none
  else
    let scale : Nat := 10 ^ fracDigits.length
    let mag : ℤ := (digitsToNat intDigits * scale + digitsToNat fracDigits : Nat)
    some (mkRat (if signed.1 then -mag else mag) scale)

/-- The body of `formatPrice` after the falsiness guard and string coercion
(gift-guide-grid.js:631-642): values above 1000 are assumed to be cents
already, values at most 1000 are multiplied by 100 first, and the result is
divided by 100 and formatted as USD. -/
def formatPriceValue (priceValue : ℚ) : String :=
  intlUSD (ratDiv100 (if 1000 < priceValue then priceValue else ratMul100 priceValue))

/-- `formatPrice` (gift-guide-grid.js:627-643): falsy input yields the empty
string; string input goes through `parseFloat` (a non-numeric string renders
as `$NaN`, as `Intl.NumberFormat` prints `NaN`). -/
def formatPrice (price : JSPrice) : String :=
  if jsFalsyPrice price then ""
  else
    match price with
    | .num q => formatPriceValue q
    | .str s =>
      match parseFloatQ s with
      | some q => formatPriceValue q
      | none => "$NaN"
    | _ => ""

/-- Step 1 of `getProductImage`: the direct `featured_image` URL of the
variant, when truthy. -/
def variantFeaturedImage (selectedVariant : Option Variant) : Option String :=
  match selectedVariant with
  | some v =>
    match v.featured_image with
    | some src => if src != "" then some src else none
    | none => none
  | none => none

/-- Step 2 of `getProductImage`: resolve a truthy `featured_image_id` of the
variant against the image gallery of the product. -/
def variantImageById (product : Product) (selectedVariant : Option Variant) : Option String :=
  match selectedVariant with
  | some v =>
    match v.featured_image_id with
    | some imgId =>
      if imgId != 0 then
        match product.images.find? (fun img => img.id == imgId) with
        | some img => some img.src
        | none => none
      else none
    | none => none
  | none => none

/-- Step 3 of `getProductImage`: the truthy product-level `featured_image`. -/
def productLevelImage (product : Product) : Option String :=
  match product.featured_image with
  | some src => if src != "" then some src else none
  | none => none

/-- Step 4 of `getProductImage`: the first gallery image. -/
def firstGalleryImage (product : Product) : Option String :=
  match product.images with
  | [] => none
  | img :: _ => some img.src

/-- `getProductImage` (gift-guide-grid.js:215-241): sequential fallbacks —
variant image, variant image by id, product featured image, first gallery
image, placeholder. -/
def getProductImage (product : Product) (selectedVariant : Option Variant) : String :=
  match variantFeaturedImage selectedVariant with
  | some src => src
  | none =>
    match variantImageById product selectedVariant with
    | some src => src
    | none =>
      match productLevelImage product with
      | some src => src
      | none =>
        match firstGalleryImage product with
        | some src => src
        | none => "https://via.placeholder.com/400x400?text=Product+Image"

/-- The popup facts the claims are about: displayed image, displayed price
text, and whether the add-to-cart button renders disabled. -/
structure PopupView where
  image : String
  priceText : String
  addToCartDisabled : Bool
  deriving DecidableEq

/-- The data content of `renderProductPopup` (gift-guide-grid.js:153-203):
image via `getProductImage`, price via
`formatPrice(selectedVariant?.price || product.price)` (a resolved variant
with price `0` is falsy and falls back to the product price), add-to-cart
disabled via `!selectedVariant?.available`. -/
def renderProductPopup (p : Product) (sel : Sel) : PopupView :=
  let selectedVariant := getSelectedVariant p sel
  { image := getProductImage p selectedVariant,
    priceText := formatPrice (match selectedVariant with
      | some v => if v.price == 0 then JSPrice.num p.price else JSPrice.num v.price
      | none => JSPrice.num p.price),
    addToCartDisabled := match selectedVariant with
      | some v => !v.available
      | none => true }

/-- The option schema the spec speaks about: the modern option names when the
modern schema is non-empty, else the legacy option names. -/
def specSchema (p : Product) : List String :=
  if p.options_with_values ≠ [] then p.options_with_values.map (fun o => o.name)
  else p.options.map (fun o => o.name)

/-- Spec-side matching predicate, written from the words of the claim: for
every defined option slot, either the selection has no value for the name of
that option or the slot value of the variant equals the selected value. -/
def specVariantMatches (p : Product) (sel : Sel) (variant : Variant) : Bool :=
  allWithIndex (fun index name =>
    match List.lookup name sel with
    | none => true
    | some selectedValue => variant.slot index == some selectedValue)
    0 (specSchema p)

/-- Spec-side availability predicate, written from the words of the claim:
some variant carries the value in the slot of the named option while matching every
other option with a currently selected value; the option under evaluation is
excluded from the match. -/
def specOptionAvailable (p : Product) (sel : Sel) (optionName optionValue : String) : Bool :=
  match findIdxFrom (fun name => name == optionName) 0 (specSchema p) with
  | none => false
  | some optionIndex =>
    p.variants.any fun variant =>
      variant.slot optionIndex == some optionValue &&
      allWithIndex (fun index name =>
        if name == optionName then true
        else match List.lookup name sel with
          | none => true
          | some selectedValue => variant.slot index == some selectedValue)
        0 (specSchema p)

/-- Spec-side list of the defined option values of a variant (the non-null
slots; the examples of the claim never involve empty strings, and an empty string can
neither contain "black" nor equal "m"). -/
def definedOptionValues (variant : Variant) : List String :=
  [variant.option1, variant.option2, variant.option3].filterMap id

/-! Concrete sample data used by counterexamples and witnesses. -/

/-- A variant with option values Black / Medium. -/
def variantBlackMedium : Variant :=
  { id := 1, price := 2500, available := true, option1 := some "Black",
    option2 := some "Medium", option3 := none, featured_image := none,
    featured_image_id := none }

/-- A variant with option values M / BLACK (reversed order, different case). -/
def variantUpperMBlack : Variant :=
  { id := 2, price := 2500, available := true, option1 := some "M",
    option2 := some "BLACK", option3 := none, featured_image := none,
    featured_image_id := none }

/-- A variant with option values Navy / Medium. -/
def variantNavyMedium : Variant :=
  { id := 3, price := 2500, available := true, option1 := some "Navy",
    option2 := some "Medium", option3 := none, featured_image := none,
    featured_image_id := none }

/-- The only variant of `productNoOptions`: distinct price and image from the
product-level fields. -/
def variantNoOptions : Variant :=
  { id := 7, price := 5000, available := true, option1 := none, option2 := none,
    option3 := none, featured_image := some "v.jpg", featured_image_id := none }

/-- A loaded product with an empty option schema but a non-empty variants
array, whose product-level price and image differ from those of its variant. -/
def productNoOptions : Product :=
  { title := "Jacket", price := 1000, variants := [variantNoOptions],
    options_with_values := [], options := [], featured_image := some "p.jpg",
    images := [] }

/-- A two-option demo variant: Red / S, sold out. -/
def variantRedS : Variant :=
  { id := 101, price := 1500, available := false, option1 := some "Red",
    option2 := some "S", option3 := none, featured_image := none,
    featured_image_id := none }

/-- A two-option demo variant: Black / M, available. -/
def variantBlackM : Variant :=
  { id := 102, price := 2500, available := true, option1 := some "Black",
    option2 := some "M", option3 := none, featured_image := none,
    featured_image_id := none }

/-- A demo product with the modern two-option schema Color / Size. -/
def productDemo : Product :=
  { title := "Demo", price := 1500, variants := [variantRedS, variantBlackM],
    options_with_values := [{ name := "Color" }, { name := "Size" }],
    options := [], featured_image := none, images := [] }

/-- A full selection on `productDemo` resolving `variantBlackM`. -/
def selDemo : Sel := [("Color", "Black"), ("Size", "M")]

/-- A product whose single variant triggers the bundle rule. -/
def productBundle : Product :=
  { title := "Winter Coat", price := 2500, variants := [variantBlackMedium],
    options_with_values := [{ name := "Color" }, { name := "Size" }],
    options := [], featured_image := none, images := [] }

/-- A full selection on `productBundle` resolving `variantBlackMedium`. -/
def selBundle : Sel := [("Color", "Black"), ("Size", "Medium")]

/-- An empty component state. -/
def stateEmpty : GridState := { currentProduct := none, selectedVariants := [] }

/-! Helper lemmas. -/

/-- `List.lookup` only returns values stored in the association list. -/
theorem lookup_mem {k v : String} :
    ∀ {sel : List (String × String)}, List.lookup k sel = some v → (k, v) ∈ sel := by
  intro sel
  induction sel with
  | nil => intro h; simp [List.lookup] at h
  | cons a rest ih =>
    intro h
    rw [List.lookup] at h
    by_cases hk : k == a.1
    · rw [hk] at h
      cases h
      exact List.mem_cons.mpr (Or.inl (by rw [eq_of_beq hk]))
    · rw [Bool.eq_false_iff.mpr hk] at h
      exact List.mem_cons_of_mem _ (ih h)

/-- `List.find?` only depends on the values of the predicate on the list. -/
theorem find_congr {α : Type} {f g : α → Bool} :
    ∀ {l : List α}, (∀ a ∈ l, f a = g a) → l.find? f = l.find? g := by
  intro l
  induction l with
  | nil => intro _; rfl
  | cons a rest ih =>
    intro h
    rw [List.find?, List.find?, h a (List.mem_cons_self a rest)]
    cases g a
    · exact ih fun b hb => h b (List.mem_cons_of_mem a hb)
    · rfl

/-- `List.any` only depends on the values of the predicate on the list. -/
theorem any_congr {α : Type} {f g : α → Bool} :
    ∀ {l : List α}, (∀ a ∈ l, f a = g a) → l.any f = l.any g := by
  intro l
  induction l with
  | nil => intro _; rfl
  | cons a rest ih =>
    intro h
    rw [List.any_cons, List.any_cons, h a (List.mem_cons_self a rest),
      ih fun b hb => h b (List.mem_cons_of_mem a hb)]

/-- `allWithIndex` only depends on the values of the predicate on the list. -/
theorem allWithIndex_congr {α : Type} {p q : Nat → α → Bool} :
    ∀ {l : List α} {n : Nat}, (∀ i a, a ∈ l → p i a = q i a) →
      allWithIndex p n l = allWithIndex q n l := by
  intro l
  induction l with
  | nil => intro n _; rfl
  | cons a rest ih =>
    intro n h
    rw [allWithIndex, allWithIndex, h n a (List.mem_cons_self a rest),
      ih fun i b hb => h i b (List.mem_cons_of_mem a hb)]

/-- `allWithIndex` over a mapped list. -/
theorem allWithIndex_map {α β : Type} (f : α → β) (q : Nat → β → Bool) :
    ∀ (l : List α) (n : Nat),
      allWithIndex q n (l.map f) = allWithIndex (fun i a => q i (f a)) n l := by
  intro l
  induction l with
  | nil => intro n; rfl
  | cons a rest ih => intro n; rw [List.map_cons, allWithIndex, allWithIndex, ih]

/-- `findIdxFrom` over a mapped list. -/
theorem findIdxFrom_map {α β : Type} (f : α → β) (q : β → Bool) :
    ∀ (l : List α) (n : Nat),
      findIdxFrom q n (l.map f) = findIdxFrom (fun a => q (f a)) n l := by
  intro l
  induction l with
  | nil => intro n; rfl
  | cons a rest ih =>
    intro n
    rw [List.map_cons, findIdxFrom, findIdxFrom, ih]

/-- `ratMul100` computes exactly `q * 100`. -/
theorem ratMul100_eq (q : ℚ) : ratMul100 q = q * 100 := by
  rw [ratMul100, Rat.mkRat_eq_div]
  push_cast
  rw [mul_div_right_comm, Rat.num_div_den]

/-- `ratDiv100` computes exactly `q / 100`. -/
theorem ratDiv100_eq (q : ℚ) : ratDiv100 q = q / 100 := by
  rw [ratDiv100, Rat.mkRat_eq_div]
  push_cast
  rw [← div_div, Rat.num_div_den]

/-- Filtering out the empty string does not change `List.any` for a predicate
that rejects the empty string. -/
theorem any_filter_ne_empty {p : String → Bool} (hp : p "" = false) :
    ∀ l : List String, (l.filter (fun o => o != "")).any p = l.any p := by
  intro l
  induction l with
  | nil => rfl
  | cons a rest ih =>
    by_cases ha : a = ""
    · subst ha
      simp [List.filter_cons, ih, hp]
    · simp [List.filter_cons, ha, ih]

/-- Pointwise: under a selection without empty-string values, the slot check
of the source (with its JavaScript falsiness test) equals the one of the spec. -/
theorem slot_check_eq_spec (sel : Sel) (v : Variant)
    (hsel : ∀ pr ∈ sel, pr.2 ≠ "") (i : Nat) (name : String) :
    (match List.lookup name sel with
     | none => true
     | some selectedValue => selectedValue == "" || v.slot i == some selectedValue) =
    (match List.lookup name sel with
     | none => true
     | some selectedValue => v.slot i == some selectedValue) := by
  cases hl : List.lookup name sel with
  | none => rfl
  | some sv => simp [beq_eq_false_iff_ne.mpr (hsel _ (lookup_mem hl))]

/-- Pointwise form of `slot_check_eq_spec` with the option-under-evaluation
skip of the availability gate. -/
theorem gate_check_eq_spec (sel : Sel) (v : Variant) (optionName : String)
    (hsel : ∀ pr ∈ sel, pr.2 ≠ "") (i : Nat) (name : String) :
    (if name == optionName then true
     else match List.lookup name sel with
       | none => true
       | some selectedValue => selectedValue == "" || v.slot i == some selectedValue) =
    (if name == optionName then true
     else match List.lookup name sel with
       | none => true
       | some selectedValue => v.slot i == some selectedValue) := by
  by_cases h : (name == optionName) = true
  · rw [if_pos h, if_pos h]
  · rw [if_neg h, if_neg h]
    exact slot_check_eq_spec sel v hsel i name

/-- Under a non-empty schema and a selection without empty-string values, the
per-variant matcher of the source coincides with the one of the spec. -/
theorem variantMatches_eq_spec (p : Product) (sel : Sel)
    (hschema : p.options_with_values ≠ [] ∨ p.options ≠ [])
    (hsel : ∀ pr ∈ sel, pr.2 ≠ "") (v : Variant) :
    variantMatchesSelection p sel v = specVariantMatches p sel v := by
  by_cases howv : p.options_with_values = []
  · have hopt : p.options ≠ [] := by
      rcases hschema with h | h
      · exact absurd howv h
      · exact h
    unfold variantMatchesSelection specVariantMatches specSchema
    rw [if_neg (by simp [howv]), if_pos hopt, if_neg (by simp [howv]),
      allWithIndex_map (fun o : LegacyOption => o.name)]
    exact allWithIndex_congr fun i opt _ => slot_check_eq_spec sel v hsel i opt.name
  · unfold variantMatchesSelection specVariantMatches specSchema
    rw [if_pos howv, if_pos howv, allWithIndex_map (fun o : OptionWithValues => o.name)]
    exact allWithIndex_congr fun i opt _ => slot_check_eq_spec sel v hsel i opt.name

/-! Claim theorems. -/

/-- C1: under a non-empty option schema (modern or legacy) and any selection
mapping (selections only ever hold clicked, hence non-empty, values), the
resolver returns the first variant in the variant order of the product
matching the spec predicate — every defined option slot is either unselected or
equal to the selection — and returns none exactly when no variant matches. -/
theorem claim_C1_variant_resolution (p : Product) (sel : Sel)
    (hschema : p.options_with_values ≠ [] ∨ p.options ≠ [])
    (hsel : ∀ pr ∈ sel, pr.2 ≠ "") :
    getSelectedVariant p sel = p.variants.find? (specVariantMatches p sel) ∧
    (getSelectedVariant p sel = none ↔
      ∀ v ∈ p.variants, specVariantMatches p sel v = false) := by
  have hfind : getSelectedVariant p sel = p.variants.find? (specVariantMatches p sel) :=
    find_congr fun v _ => variantMatches_eq_spec p sel hschema hsel v
  refine ⟨hfind, ?_⟩
  rw [hfind, List.find?_eq_none]
  simp only [Bool.not_eq_true]

/-- C1 witness: the resolution equivalence at the concrete demo product. -/
theorem claim_C1_witness :
    (productDemo.options_with_values ≠ [] ∨ productDemo.options ≠ []) ∧
    getSelectedVariant productDemo selDemo =
      productDemo.variants.find? (specVariantMatches productDemo selDemo) ∧
    (getSelectedVariant productDemo selDemo = none ↔
      ∀ v ∈ productDemo.variants, specVariantMatches productDemo selDemo v = false) :=
  ⟨Or.inl (by decide),
   claim_C1_variant_resolution productDemo selDemo (Or.inl (by decide)) (by decide)⟩

/-- C2: the availability gate equals the spec predicate — some variant
carries the candidate value in the slot of the named option and matches every
*other* option with a currently selected value, the evaluated option being
excluded. -/
theorem claim_C2_availability (p : Product) (sel : Sel) (optionName optionValue : String)
    (hsel : ∀ pr ∈ sel, pr.2 ≠ "") :
    isVariantAvailable p sel optionName optionValue =
      specOptionAvailable p sel optionName optionValue := by
  by_cases howv : p.options_with_values = []
  · by_cases hopt : p.options = []
    · unfold isVariantAvailable specOptionAvailable specSchema
      rw [if_neg (by simp [howv]), if_neg (by simp [hopt]), if_neg (by simp [howv]), hopt]
      rfl
    · unfold isVariantAvailable specOptionAvailable specSchema
      rw [if_neg (by simp [howv]), if_pos hopt, if_neg (by simp [howv])]
      simp only [findIdxFrom_map (fun o : LegacyOption => o.name),
        allWithIndex_map (fun o : LegacyOption => o.name)]
      cases hidx : findIdxFrom (fun o : LegacyOption => o.name == optionName) 0 p.options with
      | none => simp [hidx]
      | some idx =>
        simp only [hidx]
        refine any_congr fun variant _ => ?_
        have := allWithIndex_congr (l := p.options) (n := 0)
          fun i opt _ => gate_check_eq_spec sel variant optionName hsel i opt.name
        rw [this]
  · unfold isVariantAvailable specOptionAvailable specSchema
    rw [if_pos howv, if_pos howv]
    simp only [findIdxFrom_map (fun o : OptionWithValues => o.name),
      allWithIndex_map (fun o : OptionWithValues => o.name)]
    cases hidx : findIdxFrom (fun o : OptionWithValues => o.name == optionName) 0
        p.options_with_values with
    | none => simp [hidx]
    | some idx =>
      simp only [hidx]
      refine any_congr fun variant _ => ?_
      have := allWithIndex_congr (l := p.options_with_values) (n := 0)
        fun i opt _ => gate_check_eq_spec sel variant optionName hsel i opt.name
      rw [this]

/-- C2 witness: the gate equivalence at the concrete demo product. -/
theorem claim_C2_witness :
    isVariantAvailable productDemo selDemo "Size" "M" =
      specOptionAvailable productDemo selDemo "Size" "M" ∧
    isVariantAvailable productDemo selDemo "Size" "M" = true ∧
    isVariantAvailable productDemo selDemo "Size" "S" =
      specOptionAvailable productDemo selDemo "Size" "S" ∧
    isVariantAvailable productDemo selDemo "Size" "S" = false :=
  ⟨claim_C2_availability productDemo selDemo "Size" "M" (by decide), by decide,
   claim_C2_availability productDemo selDemo "Size" "S" (by decide), by decide⟩

/-- C3: `shouldAutoAddDarkWinterJacket` holds exactly when the defined
option values of the variant, case-insensitively, include one containing "black" and
one containing "medium" or equal to "m"; in particular it fires for
Black/Medium, for M/BLACK (any order or case), and not for Navy/Medium. -/
theorem claim_C3_bundle_trigger :
    (∀ variant : Variant, shouldAutoAddDarkWinterJacket variant = true ↔
      ((definedOptionValues variant).any (fun s => strContains (jsLower s) "black") = true ∧
       (definedOptionValues variant).any
         (fun s => strContains (jsLower s) "medium" || jsLower s == "m") = true)) ∧
    shouldAutoAddDarkWinterJacket variantBlackMedium = true ∧
    shouldAutoAddDarkWinterJacket variantUpperMBlack = true ∧
    shouldAutoAddDarkWinterJacket variantNavyMedium = false := by
  refine ⟨?_, by decide, by decide, by decide⟩
  intro variant
  have hb : (fun s => strContains (jsLower s) "black") "" = false := by decide
  have hm : (fun s => strContains (jsLower s) "medium" || jsLower s == "m") "" = false := by
    decide
  simp only [shouldAutoAddDarkWinterJacket, definedOptionValues]
  rw [any_filter_ne_empty hb, any_filter_ne_empty hm, Bool.and_eq_true]

/-- C4 counterexample: for the no-options product, no variant is resolved,
and the rendered popup shows the product-level image and price, not those of
the first variant; the add-to-cart button even renders disabled. -/
theorem claim_C4_counterexample :
    getSelectedVariant productNoOptions [] = none ∧
    productNoOptions.variants = [variantNoOptions] ∧
    (renderProductPopup productNoOptions []).image = "p.jpg" ∧
    variantNoOptions.featured_image = some "v.jpg" ∧
    (renderProductPopup productNoOptions []).image ≠ "v.jpg" ∧
    (renderProductPopup productNoOptions []).priceText = "$1,000.00" ∧
    formatPrice (JSPrice.num variantNoOptions.price) = "$50.00" ∧
    (renderProductPopup productNoOptions []).priceText ≠
      formatPrice (JSPrice.num variantNoOptions.price) ∧
    (renderProductPopup productNoOptions []).addToCartDisabled = true := by decide

/-- C4 (amended): for every loaded product whose option schema is empty or
absent, `getSelectedVariant` matches no variant (the final matcher branch
returns false), so the rendered popup falls back to the product-level price
and the product-level image chain, and the add-to-cart button renders
disabled. -/
theorem claim_C4_no_options (p : Product) (sel : Sel)
    (h1 : p.options_with_values = []) (h2 : p.options = []) :
    getSelectedVariant p sel = none ∧
    (renderProductPopup p sel).priceText = formatPrice (JSPrice.num p.price) ∧
    (renderProductPopup p sel).image = getProductImage p none ∧
    (renderProductPopup p sel).addToCartDisabled = true := by
  have hnone : getSelectedVariant p sel = none := by
    unfold getSelectedVariant
    rw [List.find?_eq_none]
    intro v _
    simp [variantMatchesSelection, h1, h2]
  refine ⟨hnone, ?_, ?_, ?_⟩ <;> simp [renderProductPopup, hnone]

/-- C4 witness: the amended statement at the concrete no-options product. -/
theorem claim_C4_witness :
    productNoOptions.options_with_values = [] ∧ productNoOptions.options = [] ∧
    (getSelectedVariant productNoOptions [] = none ∧
     (renderProductPopup productNoOptions []).priceText =
       formatPrice (JSPrice.num productNoOptions.price) ∧
     (renderProductPopup productNoOptions []).image = getProductImage productNoOptions none ∧
     (renderProductPopup productNoOptions []).addToCartDisabled = true) :=
  ⟨rfl, rfl, claim_C4_no_options productNoOptions [] rfl rfl⟩

/-- C5: `formatPrice 2500 = "$25.00"`; every positive value at most 1000 is
multiplied by 100 before the display division by 100, so it is rendered as
that many dollars (in particular `19.99` renders as `"$19.99"`, not
`"$0.20"`, also when passed as the string `"19.99"`); every value above 1000
is treated as cents. -/
theorem claim_C5_price_heuristic :
    formatPrice (JSPrice.num 2500) = "$25.00" ∧
    (∀ q : ℚ, 0 < q → q ≤ 1000 → formatPrice (JSPrice.num q) = intlUSD q) ∧
    formatPrice (JSPrice.num (19.99 : ℚ)) = "$19.99" ∧
    formatPrice (JSPrice.num (19.99 : ℚ)) ≠ "$0.20" ∧
    formatPrice (JSPrice.str "19.99") = "$19.99" ∧
    (∀ q : ℚ, 1000 < q → formatPrice (JSPrice.num q) = intlUSD (q / 100)) := by
  have h19 : (19.99 : ℚ) = mkRat 1999 100 := by norm_num [Rat.mkRat_eq_div]
  refine ⟨by decide, ?_, by rw [h19]; decide, by rw [h19]; decide, by decide, ?_⟩
  · intro q h0 h1
    have hne : (q == 0) = false := beq_eq_false_iff_ne.mpr (ne_of_gt h0)
    simp only [formatPrice, jsFalsyPrice, hne, Bool.false_eq_true, if_false, formatPriceValue,
      not_lt.mpr h1, ratDiv100_eq, ratMul100_eq]
    rw [mul_div_cancel_right₀ q (by norm_num : (100 : ℚ) ≠ 0)]
  · intro q h1000
    have hne : (q == 0) = false :=
      beq_eq_false_iff_ne.mpr (ne_of_gt (lt_trans (by norm_num) h1000))
    simp only [formatPrice, jsFalsyPrice, hne, Bool.false_eq_true, if_false, formatPriceValue]
    rw [if_pos h1000, ratDiv100_eq]

/-- C5 witness: the two universally quantified conjuncts instantiated at 5
and 2500. -/
theorem claim_C5_witness :
    ((0 : ℚ) < 5 ∧ (5 : ℚ) ≤ 1000 ∧ formatPrice (JSPrice.num 5) = intlUSD 5) ∧
    ((1000 : ℚ) < 2500 ∧ formatPrice (JSPrice.num 2500) = intlUSD (2500 / 100)) :=
  ⟨⟨by decide, by decide, claim_C5_price_heuristic.2.1 5 (by decide) (by decide)⟩,
   ⟨by decide, claim_C5_price_heuristic.2.2.2.2.2 2500 (by decide)⟩⟩

/-- C6: the add-to-cart flow issues a cart-add request exactly when a variant
resolves and is available; otherwise it performs no request, no popup change
and shows no toast. -/
theorem claim_C6_guard (p : Product) (sel : Sel)
    (primaryResult bundleResult : CartCallResult) :
    ((handleAddToCart p sel primaryResult bundleResult).requests ≠ [] ↔
      resolvedAvailable p sel = true) ∧
    (resolvedAvailable p sel = false →
      handleAddToCart p sel primaryResult bundleResult =
        { requests := [], popupClosed := false, toasts := [] }) ∧
    (resolvedAvailable p sel = true ↔
      ∃ v, getSelectedVariant p sel = some v ∧ v.available = true) := by
  unfold handleAddToCart resolvedAvailable
  cases hv : getSelectedVariant p sel with
  | none => simp
  | some v =>
    cases hav : v.available with
    | false => simp [hav]
    | true =>
      cases primaryResult with
      | err => simp [hav]
      | ok =>
        by_cases htrig : shouldAutoAddDarkWinterJacket v = true
        · simp [hav, htrig]
        · simp [hav, htrig]

/-- C6 witness: at the no-options product the guard fails and the flow is a
no-op. -/
theorem claim_C6_witness :
    resolvedAvailable productNoOptions [] = false ∧
    handleAddToCart productNoOptions [] CartCallResult.ok CartCallResult.ok =
      { requests := [], popupClosed := false, toasts := [] } :=
  ⟨by decide,
   (claim_C6_guard productNoOptions [] CartCallResult.ok CartCallResult.ok).2.1 (by decide)⟩

/-- C7: when the primary add succeeds and the bundle rule fires, a failing
secondary bundle add (caught inside `addDarkWinterJacketToCart`) still lets
the flow close the popup and show the success toast; no error toast is shown
and the bundle request was indeed attempted. -/
theorem claim_C7_bundle_isolation (p : Product) (sel : Sel) (v : Variant)
    (hres : getSelectedVariant p sel = some v) (hav : v.available = true)
    (htrig : shouldAutoAddDarkWinterJacket v = true) :
    (handleAddToCart p sel CartCallResult.ok CartCallResult.err).popupClosed = true ∧
    Toast.success "Product added to cart!" ∈
      (handleAddToCart p sel CartCallResult.ok CartCallResult.err).toasts ∧
    (∀ m, Toast.error m ∉ (handleAddToCart p sel CartCallResult.ok CartCallResult.err).toasts) ∧
    (darkWinterJacketVariantId, 1) ∈
      (handleAddToCart p sel CartCallResult.ok CartCallResult.err).requests := by
  unfold handleAddToCart
  rw [hres]
  simp [hav, htrig, addDarkWinterJacketToCart]

/-- C7 witness: the bundle-triggering product with a failing secondary add. -/
theorem claim_C7_witness :
    (handleAddToCart productBundle selBundle CartCallResult.ok CartCallResult.err).popupClosed
      = true ∧
    Toast.success "Product added to cart!" ∈
      (handleAddToCart productBundle selBundle CartCallResult.ok CartCallResult.err).toasts ∧
    (∀ m, Toast.error m ∉
      (handleAddToCart productBundle selBundle CartCallResult.ok CartCallResult.err).toasts) ∧
    (darkWinterJacketVariantId, 1) ∈
      (handleAddToCart productBundle selBundle CartCallResult.ok CartCallResult.err).requests :=
  claim_C7_bundle_isolation productBundle selBundle variantBlackMedium (by decide) (by decide)
    (by decide)

/-- C8: a hotspot click carrying a truthy handle or id always opens the
popup; when the product load fails the error is swallowed (no warning about a
missing id, no rethrow) and the component state is left untouched, so the
popup shows the stale or empty previous content. -/
theorem claim_C8_load_failure (st : GridState) (productHandle productId : Option String)
    (fetched : Option Product)
    (hid : (!optTruthy productHandle && !optTruthy productId) = false) :
    (handleHotspotClick st productHandle productId fetched).popupOpened = true ∧
    (handleHotspotClick st productHandle productId fetched).warnedMissingId = false ∧
    (fetched = none → handleHotspotClick st productHandle productId fetched =
      { state := st, popupOpened := true, warnedMissingId := false }) := by
  unfold handleHotspotClick loadProduct
  rw [hid]
  cases fetched <;> simp

/-- C8 witness: a click with a handle and a failing load still opens the
popup on the unchanged state. -/
theorem claim_C8_witness :
    ((!optTruthy (some "prod-1") && !optTruthy (none : Option String)) = false) ∧
    handleHotspotClick stateEmpty (some "prod-1") none none =
      { state := stateEmpty, popupOpened := true, warnedMissingId := false } :=
  ⟨by decide,
   (claim_C8_load_failure stateEmpty (some "prod-1") none none (by decide)).2.2 rfl⟩

/-- A key already present survives a guarded selection write. -/
theorem lookup_isSome_setIfTruthy {sel : Sel} {k name : String} {v : Option String}
    (h : (List.lookup k sel).isSome = true) :
    (List.lookup k (setIfTruthy sel name v)).isSome = true := by
  cases v with
  | none => exact h
  | some s =>
    simp only [setIfTruthy]
    by_cases hs : (s != "") = true
    · rw [if_pos hs, List.lookup]
      by_cases hk : (k == name) = true
      · rw [hk]
        rfl
      · rw [Bool.eq_false_iff.mpr hk]
        exact h
    · rw [if_neg hs]
      exact h

/-- A truthy selection write makes its own key present. -/
theorem lookup_setIfTruthy_self {sel : Sel} {name : String} {v : Option String}
    (h : optTruthy v = true) :
    (List.lookup name (setIfTruthy sel name v)).isSome = true := by
  cases v with
  | none => exact absurd h (by simp [optTruthy])
  | some s =>
    have hs : (s != "") = true := h
    simp only [setIfTruthy]
    rw [if_pos hs, List.lookup, beq_self_eq_true]
    rfl

/-- The modern initialization loop never removes keys. -/
theorem initSelectionFrom_preserves (fav : Variant) :
    ∀ (opts : List OptionWithValues) (n : Nat) (sel : Sel) (k : String),
      (List.lookup k sel).isSome = true →
      (List.lookup k (initSelectionFrom fav n opts sel)).isSome = true := by
  intro opts
  induction opts with
  | nil => intro n sel k h; exact h
  | cons a rest ih =>
    intro n sel k h
    rw [initSelectionFrom]
    exact ih (n + 1) _ k (lookup_isSome_setIfTruthy h)

/-- When the slots of the chosen variant are truthy for every processed option,
the modern initialization loop records a value for each option name. -/
theorem initSelectionFrom_covers (fav : Variant) :
    ∀ (opts : List OptionWithValues) (n : Nat) (sel : Sel),
      (∀ j, j < opts.length → optTruthy (fav.slot (n + j)) = true) →
      ∀ opt ∈ opts, (List.lookup opt.name (initSelectionFrom fav n opts sel)).isSome = true := by
  intro opts
  induction opts with
  | nil => intro n sel _ opt hmem; simp at hmem
  | cons a rest ih =>
    intro n sel hslots opt hmem
    rw [initSelectionFrom]
    rcases List.mem_cons.mp hmem with heq | hmem'
    · subst heq
      have h0 : optTruthy (fav.slot n) = true := by
        have := hslots 0 (by simp)
        simpa using this
      exact initSelectionFrom_preserves fav rest (n + 1) _ _ (lookup_setIfTruthy_self h0)
    · refine ih (n + 1) _ ?_ opt hmem'
      intro j hj
      have := hslots (j + 1) (by simpa using Nat.succ_lt_succ hj)
      rwa [show n + (j + 1) = n + 1 + j by omega] at this

/-- C9: for a loaded product with an available variant (whose variants, as
Shopify guarantees for a loaded product, carry a truthy value in every
schema slot, under non-empty option names), the initialized selection names
a value for every exposed option; and loading a product resets the selection
to exactly `initializeVariants` of the new product, independent of the
previous state. -/
theorem claim_C9_selection_coverage (p : Product)
    (hvar : p.variants.any (fun v => v.available) = true)
    (hslots : ∀ v ∈ p.variants, ∀ i, i < (specSchema p).length → optTruthy (v.slot i) = true)
    (hnames : ∀ name ∈ specSchema p, name ≠ "") :
    (∀ name ∈ specSchema p, (List.lookup name (initializeVariants p)).isSome = true) ∧
    (∀ st : GridState, loadProduct st (some p) =
      ({ currentProduct := some p, selectedVariants := initializeVariants p }, false)) := by
  refine ⟨?_, fun st => rfl⟩
  intro name hname
  cases hvs : p.variants with
  | nil => rw [hvs] at hvar; simp at hvar
  | cons v0 rest =>
    have hfav_mem : ((p.variants.find? (fun v => v.available)).getD v0) ∈ p.variants := by
      cases hfind : p.variants.find? (fun v => v.available) with
      | none => rw [hvs]; exact List.mem_cons_self v0 rest
      | some w => exact List.mem_of_find?_eq_some hfind
    have hfavslots := hslots _ hfav_mem
    simp only [initializeVariants, hvs]
    by_cases howv : p.options_with_values = []
    · have hopt : p.options ≠ [] := by
        intro h
        rw [specSchema, if_neg (by simp [howv]), h] at hname
        simp at hname
      have hschema_eq : specSchema p = p.options.map (fun o => o.name) := by
        rw [specSchema, if_neg (by simp [howv])]
      rw [hschema_eq] at hname hfavslots hnames
      rw [if_neg (by simp [howv]), if_pos hopt]
      rw [hvs] at hfavslots
      have hlen3 : p.options.length ≤ 3 := by
        by_contra hgt
        exact Bool.false_ne_true (hfavslots 3 (by rw [List.length_map]; omega))
      obtain ⟨opt, hoptmem, rfl⟩ := List.mem_map.mp hname
      have hname_ne : opt.name ≠ "" := hnames _ (List.mem_map_of_mem _ hoptmem)
      have hname_beq : (opt.name == "") = false := beq_eq_false_iff_ne.mpr hname_ne
      set fav := ((v0 :: rest).find? (fun v => v.available)).getD v0 with hfavdef
      obtain ⟨os, hos⟩ : ∃ os, p.options = os := ⟨p.options, rfl⟩
      rcases os with _ | ⟨a, _ | ⟨b, _ | ⟨c, _ | ⟨d, tl⟩⟩⟩⟩
      · exact absurd hos hopt
      · -- one option
        rw [hos] at hoptmem
        rcases List.mem_singleton.mp hoptmem with rfl
        have hn0 : legacyOptionName p 0 = opt.name := by
          rw [legacyOptionName, hos]
          simp [hname_beq]
        have hs0 : optTruthy fav.option1 = true := hfavslots 0 (by rw [hos]; simp)
        rw [hn0]
        exact lookup_isSome_setIfTruthy (lookup_isSome_setIfTruthy
          (lookup_setIfTruthy_self hs0))
      · -- two options
        rw [hos] at hoptmem
        have hs0 : optTruthy fav.option1 = true := hfavslots 0 (by rw [hos]; simp)
        have hs1 : optTruthy fav.option2 = true := hfavslots 1 (by rw [hos]; simp)
        rcases List.mem_cons.mp hoptmem with rfl | hoptmem
        · have hn0 : legacyOptionName p 0 = opt.name := by
            rw [legacyOptionName, hos]
            simp [hname_beq]
          rw [hn0]
          exact lookup_isSome_setIfTruthy (lookup_isSome_setIfTruthy
            (lookup_setIfTruthy_self hs0))
        · rcases List.mem_singleton.mp hoptmem with rfl
          have hn1 : legacyOptionName p 1 = opt.name := by
            rw [legacyOptionName, hos]
            simp [hname_beq]
          rw [hn1]
          exact lookup_isSome_setIfTruthy (lookup_setIfTruthy_self hs1)
      · -- three options
        rw [hos] at hoptmem
        have hs0 : optTruthy fav.option1 = true := hfavslots 0 (by rw [hos]; simp)
        have hs1 : optTruthy fav.option2 = true := hfavslots 1 (by rw [hos]; simp)
        have hs2 : optTruthy fav.option3 = true := hfavslots 2 (by rw [hos]; simp)
        rcases List.mem_cons.mp hoptmem with rfl | hoptmem
        · have hn0 : legacyOptionName p 0 = opt.name := by
            rw [legacyOptionName, hos]
            simp [hname_beq]
          rw [hn0]
          exact lookup_isSome_setIfTruthy (lookup_isSome_setIfTruthy
            (lookup_setIfTruthy_self hs0))
        · rcases List.mem_cons.mp hoptmem with rfl | hoptmem
          · have hn1 : legacyOptionName p 1 = opt.name := by
              rw [legacyOptionName, hos]
              simp [hname_beq]
            rw [hn1]
            exact lookup_isSome_setIfTruthy (lookup_setIfTruthy_self hs1)
          · rcases List.mem_singleton.mp hoptmem with rfl
            have hn2 : legacyOptionName p 2 = opt.name := by
              rw [legacyOptionName, hos]
              simp [hname_beq]
            rw [hn2]
            exact lookup_setIfTruthy_self hs2
      · -- four or more options: impossible, the fourth slot is undefined
        exact absurd hlen3 (by rw [hos]; simp only [List.length_cons]; omega)
    · have hschema_eq : specSchema p = p.options_with_values.map (fun o => o.name) := by
        rw [specSchema, if_pos howv]
      rw [hschema_eq] at hname hfavslots
      rw [if_pos howv]
      rw [hvs] at hfavslots
      obtain ⟨opt, hoptmem, rfl⟩ := List.mem_map.mp hname
      refine initSelectionFrom_covers _ p.options_with_values 0 [] ?_ opt hoptmem
      intro j hj
      have := hfavslots j (by rw [List.length_map]; exact hj)
      simpa using this

/-- C9 witness: the coverage invariant at the concrete demo product. -/
theorem claim_C9_witness :
    (∀ name ∈ specSchema productDemo,
      (List.lookup name (initializeVariants productDemo)).isSome = true) ∧
    (∀ st : GridState, loadProduct st (some productDemo) =
      ({ currentProduct := some productDemo,
         selectedVariants := initializeVariants productDemo }, false)) :=
  claim_C9_selection_coverage productDemo (by decide) (by decide) (by decide)

/-- C10: every falsy price input (0, NaN, empty string, null, undefined)
renders as the empty string, not `"$0.00"` — a free item or an empty cart
total gets no price text at all. -/
theorem claim_C10_falsy_price :
    (∀ price : JSPrice, jsFalsyPrice price = true → formatPrice price = "") ∧
    formatPrice (JSPrice.num 0) = "" ∧ formatPrice JSPrice.nan = "" ∧
    formatPrice (JSPrice.str "") = "" ∧ formatPrice JSPrice.null = "" ∧
    formatPrice JSPrice.undef = "" ∧ formatPrice (JSPrice.num 0) ≠ "$0.00" := by
  refine ⟨?_, by decide, by decide, by decide, by decide, by decide, by decide⟩
  intro price h
  simp [formatPrice, h]

/-- C10 witness: the universal conjunct instantiated at NaN. -/
theorem claim_C10_witness : jsFalsyPrice JSPrice.nan = true ∧ formatPrice JSPrice.nan = "" :=
  ⟨by decide, claim_C10_falsy_price.1 JSPrice.nan (by decide)⟩

end GiftGuideGrid
